import Mathlib

/-!
Verification of the Proofline control plane (Go) against its natural-language
specification.  The repository source available here contains the HTTP DTO
layer (`internal/server/dto.go`), its black-box test suite
(`internal/server/server_test.go`) and the SQL migration defining the event
table (`005_orgs.sql`).  The Engine proper (lease manager, validation
evaluator, authorizer, state machines) is exercised by the tests but its
source is not present; those parts are modelled from the specification and
every such definition carries a doc comment saying so.

Go values are embedded as follows: a Go slice is `Option (List α)` (`none` is
the nil slice, which `encoding/json` serializes as `null`, while `some l` is a
non-nil slice serialized as a JSON array); a Go `map[string]any` is
`Option (List (String × GoJson))`; a Go `*string` is `Option String`.
Persisted JSON text is classified by `RawJson` into the cases the decoding
helpers distinguish: a nil pointer, the empty string, text that fails to
parse, and well-formed JSON (carried as a `GoJson` value).
-/

namespace Proofline

/-- Shallow model of a parsed JSON document, mirroring what Go's
`encoding/json` produces when unmarshalling into `any`: `null`, booleans,
numbers, strings, arrays and objects (objects kept as association lists). -/
inductive GoJson where
  | null : GoJson
  | bool : Bool → GoJson
  | num : Int → GoJson
  | str : String → GoJson
  | arr : List GoJson → GoJson
  | obj : List (String × GoJson) → GoJson

/-- Classification of a persisted raw-JSON field (`*string` in Go) into the
cases distinguished by `decodeStringSlice` / `decodeJSONMap`: nil pointer,
empty string, text rejected by the JSON parser, or a well-formed document. -/
inductive RawJson where
  | absent : RawJson
  | empty : RawJson
  | malformed : RawJson
  | wellFormed : GoJson → RawJson

/-- Go `encoding/json` semantics for unmarshalling one array element into a
`string`: a JSON string yields its value, and a JSON `null` leaves the zero
value `""` in place without an error; every other element is a type error. -/
def goElemString : GoJson → Option String
  | .str s => some s
  | .null => some ""
  | _ => none

/-- Go `encoding/json` semantics for `json.Unmarshal(data, &arr)` with
`arr : []string`.  The outer `Option` is the error channel; the inner
`Option (List String)` is the resulting slice, `none` being the nil slice.
A top-level JSON `null` succeeds and sets the slice to nil; a JSON array
succeeds iff every element unmarshals as a string; anything else errors. -/
def goUnmarshalStringSlice : GoJson → Option (Option (List String))
  | .null => some none
  | .arr es => (es.mapM goElemString).map (fun l => some l)
  | _ => none

/-- Embedding of `decodeStringSlice` (dto.go): nil / empty input and
unmarshal errors yield the non-nil empty slice `some []`; a successful
unmarshal returns the resulting slice verbatim. -/
def decodeStringSlice : RawJson → Option (List String)
  | .absent => some []
  | .empty => some []
  | .malformed => some []
  | .wellFormed j =>
    match goUnmarshalStringSlice j with
    | none => some []
    | some v => v

/-- Embedding of `decodeJSONMap` (dto.go): returns the object's entries when
the input is a well-formed JSON object, and the nil map (`none`) when the
input is a nil pointer, the empty string, malformed, or any non-object JSON
value (including `null`, whose unmarshal into `any` gives a nil interface
that fails the `map[string]any` type assertion). -/
def decodeJSONMap : RawJson → Option (List (String × GoJson))
  | .absent => none
  | .empty => none
  | .malformed => none
  | .wellFormed j =>
    match j with
    | .obj kvs => some kvs
    | _ => none

/-- Embedding of `nonNilSlice` (dto.go): replaces the nil slice by the
non-nil empty slice and leaves every non-nil slice unchanged. -/
def nonNilSlice : Option (List α) → Option (List α)
  | none => some []
  | some l => some l

/-- Embedding of `defaultMode` (dto.go): the empty stored mode is reported
as "none". -/
def defaultMode (mode : String) : String :=
  if mode = "" then "none" else mode

/-- Fields of `domain.Task` read by `taskResponse` (dto.go).  The raw-JSON
columns are carried as `RawJson` classifications. -/
structure DomainTask where
  id : String
  projectId : String
  iterationId : Option String
  parentId : Option String
  type : String
  title : String
  description : String
  status : String
  assigneeId : Option String
  workProofJSON : RawJson
  validationMode : String
  requiredAttestationsJSON : RawJson
  requiredThreshold : Option Int
  dependsOn : Option (List String)
  createdAt : String
  updatedAt : String
  completedAt : Option String

/-- Embedding of `TaskResponse` (dto.go).  Slice-valued fields are
`Option (List String)` so that the nil/non-nil distinction survives. -/
structure TaskResponse where
  id : String
  projectId : String
  iterationId : Option String
  parentId : Option String
  type : String
  title : String
  description : String
  status : String
  assigneeId : Option String
  workProof : Option (List (String × GoJson))
  validationMode : String
  requiredAttestations : Option (List String)
  requiredThreshold : Option Int
  dependsOn : Option (List String)
  createdAt : String
  updatedAt : String
  completedAt : Option String

/-- Embedding of `taskResponse` (dto.go): decodes the persisted JSON columns,
defaults the validation mode, and forces the slice fields non-nil. -/
def taskResponse (t : DomainTask) : TaskResponse :=
  let req := decodeStringSlice t.requiredAttestationsJSON
  let wp := decodeJSONMap t.workProofJSON
  { id := t.id
    projectId := t.projectId
    iterationId := t.iterationId
    parentId := t.parentId
    type := t.type
    title := t.title
    description := t.description
    status := t.status
    assigneeId := t.assigneeId
    workProof := wp
    validationMode := defaultMode t.validationMode
    requiredAttestations := nonNilSlice req
    requiredThreshold := t.requiredThreshold
    dependsOn := nonNilSlice t.dependsOn
    createdAt := t.createdAt
    updatedAt := t.updatedAt
    completedAt := t.completedAt }

/-- Fields of `domain.Decision` read by `decisionResponse` (dto.go).  The
JSON columns are plain strings in Go (wrapped through `strPtr`), so they are
never the nil pointer; `RawJson.absent` is simply unreachable for them. -/
structure DomainDecision where
  id : String
  projectId : String
  title : String
  decision : String
  deciderId : String
  contextJSON : RawJson
  rationaleJSON : RawJson
  alternativesJSON : RawJson
  createdAt : String

/-- Embedding of `DecisionResponse` (dto.go). -/
structure DecisionResponse where
  id : String
  projectId : String
  title : String
  decision : String
  deciderId : String
  context : Option (List (String × GoJson))
  rationale : Option (List String)
  alternatives : Option (List String)
  createdAt : String

/-- Embedding of `decisionResponse` (dto.go). -/
def decisionResponse (d : DomainDecision) : DecisionResponse :=
  { id := d.id
    projectId := d.projectId
    title := d.title
    decision := d.decision
    deciderId := d.deciderId
    context := decodeJSONMap d.contextJSON
    rationale := nonNilSlice (decodeStringSlice d.rationaleJSON)
    alternatives := nonNilSlice (decodeStringSlice d.alternativesJSON)
    createdAt := d.createdAt }

/-- Embedding of `ValidationStatusResponse` (dto.go). -/
structure ValidationStatusResponse where
  mode : String
  required : Option (List String)
  threshold : Option Int
  present : Option (List String)
  missing : Option (List String)
  satisfied : Bool

/-- Embedding of `WhoAmIResponse` (dto.go). -/
structure WhoAmIResponse where
  actorId : String
  roles : Option (List String)
  permissions : Option (List String)

/-! ### Marshalling of responses

Go's `encoding/json` marshals a nil slice as `null` and a non-nil slice as an
array; a struct field with the `omitempty` option is dropped when its value
is the zero value (nil pointer, empty string, nil or empty map, nil pointer
to int).  The functions below produce the ordered field list of the emitted
JSON object, following the struct tags of dto.go exactly. -/

/-- Marshal a Go `[]string` value: nil becomes JSON `null`, otherwise an
array of strings. -/
def marshalStrSlice : Option (List String) → GoJson
  | none => .null
  | some l => .arr (l.map .str)

/-- Marshal a Go `*string` value: nil becomes JSON `null`. -/
def marshalOptStr : Option String → GoJson
  | none => .null
  | some s => .str s

/-- Field list for an `omitempty` `*string` field: dropped when nil. -/
def optStrField (key : String) : Option String → List (String × GoJson)
  | none => []
  | some s => [(key, .str s)]

/-- Field list for an `omitempty` `string` field: dropped when empty. -/
def optEmptyStrField (key : String) (s : String) : List (String × GoJson) :=
  if s = "" then [] else [(key, .str s)]

/-- Field list for an `omitempty` `map[string]any` field: dropped when the
map is nil or has no entries. -/
def optMapField (key : String) : Option (List (String × GoJson)) → List (String × GoJson)
  | none => []
  | some [] => []
  | some kvs => [(key, .obj kvs)]

/-- Field list for an `omitempty` `*int` field: dropped when nil. -/
def optIntField (key : String) : Option Int → List (String × GoJson)
  | none => []
  | some n => [(key, .num n)]

/-- JSON object emitted for a `TaskResponse`, field by field in struct order,
following the dto.go tags (`iteration_id`, `parent_id`, `description`,
`assignee_id`, `work_proof` and `required_threshold` carry `omitempty`;
`required_attestations`, `depends_on` and `completed_at` do not). -/
def taskResponseFields (r : TaskResponse) : List (String × GoJson) :=
  [("id", .str r.id), ("project_id", .str r.projectId)]
  ++ optStrField "iteration_id" r.iterationId
  ++ optStrField "parent_id" r.parentId
  ++ [("type", .str r.type), ("title", .str r.title)]
  ++ optEmptyStrField "description" r.description
  ++ [("status", .str r.status)]
  ++ optStrField "assignee_id" r.assigneeId
  ++ optMapField "work_proof" r.workProof
  ++ [("validation_mode", .str r.validationMode),
      ("required_attestations", marshalStrSlice r.requiredAttestations)]
  ++ optIntField "required_threshold" r.requiredThreshold
  ++ [("depends_on", marshalStrSlice r.dependsOn),
      ("created_at", .str r.createdAt), ("updated_at", .str r.updatedAt),
      ("completed_at", marshalOptStr r.completedAt)]

/-- JSON object emitted for a `DecisionResponse` (dto.go tags: `context`
carries `omitempty`; `rationale` and `alternatives` do not). -/
def decisionResponseFields (r : DecisionResponse) : List (String × GoJson) :=
  [("id", .str r.id), ("project_id", .str r.projectId),
   ("title", .str r.title), ("decision", .str r.decision),
   ("decider_id", .str r.deciderId)]
  ++ optMapField "context" r.context
  ++ [("rationale", marshalStrSlice r.rationale),
      ("alternatives", marshalStrSlice r.alternatives),
      ("created_at", .str r.createdAt)]

/-- JSON object emitted for a `ValidationStatusResponse` (dto.go tags: only
`threshold` carries `omitempty`). -/
def validationStatusFields (r : ValidationStatusResponse) : List (String × GoJson) :=
  [("mode", .str r.mode), ("required", marshalStrSlice r.required)]
  ++ optIntField "threshold" r.threshold
  ++ [("present", marshalStrSlice r.present),
      ("missing", marshalStrSlice r.missing),
      ("satisfied", .bool r.satisfied)]

/-- JSON object emitted for a `WhoAmIResponse` (dto.go: no `omitempty`). -/
def whoAmIFields (r : WhoAmIResponse) : List (String × GoJson) :=
  [("actor_id", .str r.actorId), ("roles", marshalStrSlice r.roles),
   ("permissions", marshalStrSlice r.permissions)]

/-! ### Error taxonomy (spec section 7) -/

/-- Modelled from the spec: the stable error codes of section 7.  Context
cancellation (`canceled`) names a concurrency behaviour outside this shallow
embedding and no modelled operation produces it, so it is omitted. -/
inductive ErrCode where
  | badRequest : ErrCode
  | notFound : ErrCode
  | forbidden : ErrCode
  | forbiddenAttestationKind : ErrCode
  | leaseConflict : ErrCode
  | conflict : ErrCode
  | invalidTransition : ErrCode
  | validationFailed : ErrCode
  | internal : ErrCode
deriving DecidableEq, Repr

/-- Modelled from the spec: the mechanical error-kind-to-HTTP-status mapping
of section 6. -/
def httpStatus : ErrCode → Nat
  | .badRequest => 400
  | .notFound => 404
  | .forbidden => 403
  | .forbiddenAttestationKind => 403
  | .leaseConflict => 409
  | .conflict => 409
  | .invalidTransition => 422
  | .validationFailed => 422
  | .internal => 500

/-! ### RBAC (spec section 4.6) -/

/-- Modelled from the spec: the authorization state for one project — the
seeded role-to-permission matrix, per-project actor-role grants, and the
attestation authorities mapping an attestation kind to the roles allowed to
assert it (section 3 RBAC entities, section 4.6). -/
structure Rbac where
  rolePerms : List (String × String)
  actorRoles : List (String × String)
  attestAuthorities : List (String × String)

/-- Modelled from the spec: `HasPermission(actor, project, perm)` is true iff
some granted role of the actor maps to the permission (section 4.6). -/
def hasPermission (r : Rbac) (actor perm : String) : Bool :=
  r.actorRoles.any fun ar =>
    ar.1 = actor && r.rolePerms.any fun rp => rp.1 = ar.2 && rp.2 = perm

/-- Modelled from the spec: `CanAttest(actor, project, kind)` is true iff the
actor holds `attestation.bypass`, or some attestation authority for the kind
names a role the actor has (section 4.6). -/
def canAttest (r : Rbac) (actor kind : String) : Bool :=
  hasPermission r actor "attestation.bypass" ||
    r.attestAuthorities.any fun au =>
      au.1 = kind && r.actorRoles.any fun ar => ar.1 = actor && ar.2 = au.2

/-! ### Validation policy and evaluator (spec section 4.3) -/

/-- Modelled from the spec: the effective policy triple
`(mode, required[], threshold?)` (section 4.3, glossary). -/
structure Policy where
  mode : String
  required : List String
  threshold : Option Int

/-- Modelled from the spec: the `{present, missing, satisfied}` answer of the
validation evaluator (section 4.3). -/
structure ValidationResult where
  present : List String
  missing : List String
  satisfied : Bool
deriving Repr, DecidableEq

/-- Modelled from the spec: the validation evaluator (section 4.3).  Given
the policy and the kinds currently attached to the entity it computes
`present` and `missing` as the required list filtered by membership in the
attached kinds — hence both preserve the order of `required` — and
`satisfied` per mode: `none` is vacuously satisfied, `all` needs every
required kind, `any` needs at least one, `threshold` needs at least
`threshold` distinct required kinds present.  The mode is constrained to the
four enum values; the catch-all is unreachable. -/
def evaluateValidation (p : Policy) (kinds : List String) : ValidationResult :=
  match p.mode with
  | "none" => { present := [], missing := [], satisfied := true }
  | "all" =>
    { present := p.required.filter fun k => kinds.contains k
      missing := p.required.filter fun k => !kinds.contains k
      satisfied := p.required.all fun k => kinds.contains k }
  | "any" =>
    { present := p.required.filter fun k => kinds.contains k
      missing := p.required.filter fun k => !kinds.contains k
      satisfied := p.required.any fun k => kinds.contains k }
  | "threshold" =>
    { present := p.required.filter fun k => kinds.contains k
      missing := p.required.filter fun k => !kinds.contains k
      satisfied := (p.threshold.getD 0) ≤ (p.required.filter fun k => kinds.contains k).length }
  | _ => { present := [], missing := [], satisfied := true }

/-- Modelled from the spec: the handler of `GET tasks/{id}/validation`
assembles a `ValidationStatusResponse` from the evaluator's answer, with the
slice fields forced non-nil (section 4.1 tie-breaks, section 4.3). -/
def validationStatusResponse (p : Policy) (kinds : List String) : ValidationStatusResponse :=
  let r := evaluateValidation p kinds
  { mode := p.mode
    required := nonNilSlice (some p.required)
    threshold := p.threshold
    present := nonNilSlice (some r.present)
    missing := nonNilSlice (some r.missing)
    satisfied := r.satisfied }

/-- Modelled from the spec: the handler of `GET me/permissions` reports the
actor's roles and permissions with the slice fields forced non-nil
(section 4.1 tie-breaks, section 6). -/
def whoAmIResponse (actorId : String) (roles perms : Option (List String)) : WhoAmIResponse :=
  { actorId := actorId
    roles := nonNilSlice roles
    permissions := nonNilSlice perms }

/-! ### Leases (spec section 4.4) -/

/-- Modelled from the spec: a lease row, at most one per task (section 3).
Time is modelled as a natural number of clock ticks. -/
structure Lease where
  taskId : String
  ownerId : String
  acquiredAt : Nat
  expiresAt : Nat
deriving Repr, DecidableEq

/-- Modelled from the spec: a lease is active when `expires_at > now`
(section 4.4). -/
def leaseActive (l : Lease) (now : Nat) : Bool :=
  now < l.expiresAt

/-! ### Engine-level events (spec sections 4.6, 4.7)

Engine operations below record the events they emit as a list of `Evt`
records (type, entity kind, entity id, actor).  The journal row encoding,
with its monotonic id and SQL enum check, is modelled separately for the
event-log claims. -/

/-- Modelled from the spec: an event emitted by an Engine operation,
restricted to the fields the claims observe (section 4.7). -/
structure Evt where
  type : String
  entityKind : String
  entityId : String
  actorId : String
deriving Repr, DecidableEq

/-- Modelled from the spec: the events listing, filterable by `type` and
ordered by id descending, i.e. most recent first (sections 4.1, 4.7). -/
def listEvents (log : List Evt) (typeFilter : Option String) : List Evt :=
  (match typeFilter with
   | none => log
   | some t => log.filter fun e => e.type = t).reverse

/-! ### Engine operations (spec sections 4.1, 4.2, 4.4)

Each operation returns the post-state together with an `Except` result; an
error leaves the state unchanged except for the `auth.denied` event emitted
on authorization denials (section 4.6). -/

/-- Modelled from the spec: the state consulted by `Claim` on one task —
the RBAC matrix, the task's current lease row (if any), and the event log
(section 4.4). -/
structure ClaimState where
  rbac : Rbac
  lease : Option Lease
  log : List Evt

/-- Modelled from the spec: `Claim(task, actor)` (section 4.4).  Requires
`task.claim`; with no lease or an expired one it grants
`(acquired_at = now, expires_at = now + ttl)` and emits `lease.acquired`;
an active lease owned by the caller is renewed with `lease.renewed`; an
active lease owned by anyone else fails with `lease_conflict`. -/
def claimTask (s : ClaimState) (taskId actor : String) (now ttl : Nat) :
    ClaimState × Except ErrCode Lease :=
  if !hasPermission s.rbac actor "task.claim" then
    ({ s with log := s.log ++ [⟨"auth.denied", "task", taskId, actor⟩] }, .error .forbidden)
  else
    match s.lease with
    | none =>
      let l : Lease := ⟨taskId, actor, now, now + ttl⟩
      ({ s with lease := some l,
                log := s.log ++ [⟨"lease.acquired", "lease", taskId, actor⟩] }, .ok l)
    | some cur =>
      if !leaseActive cur now then
        let l : Lease := ⟨taskId, actor, now, now + ttl⟩
        ({ s with lease := some l,
                  log := s.log ++ [⟨"lease.acquired", "lease", taskId, actor⟩] }, .ok l)
      else if cur.ownerId = actor then
        let l : Lease := { cur with expiresAt := now + ttl }
        ({ s with lease := some l,
                  log := s.log ++ [⟨"lease.renewed", "lease", taskId, actor⟩] }, .ok l)
      else
        (s, .error .leaseConflict)

/-- Modelled from the spec: the state consulted by `CompleteTask` on one
task — RBAC, the task's status and completion timestamp, its lease, the
attestation kinds attached to it, its effective policy, and the event log
(section 4.1). -/
structure TaskState where
  rbac : Rbac
  status : String
  completedAt : Option String
  lease : Option Lease
  attestedKinds : List String
  policy : Policy
  log : List Evt

/-- Modelled from the spec: the caller holds the task's active lease
(section 4.4). -/
def holdsActiveLease (s : TaskState) (actor : String) (now : Nat) : Bool :=
  match s.lease with
  | some l => l.ownerId = actor && leaseActive l now
  | none => false

/-- Modelled from the spec: `CompleteTask` (section 4.1).  Requires (a) the
caller holds the active lease or possesses `task.force_done`, else
`forbidden` with an `auth.denied` event; (b) the evaluator reports
`satisfied = true` unless `force = true` and the caller has
`task.force_done`, else `validation_failed`.  On success the status becomes
`done`, `completed_at` is set, the lease is released, and `task.done` (plus
`task.force_done` when forced) is emitted. -/
def completeTask (s : TaskState) (taskId actor : String) (force : Bool)
    (now : Nat) (nowTs : String) : TaskState × Except ErrCode Unit :=
  if !(holdsActiveLease s actor now || hasPermission s.rbac actor "task.force_done") then
    ({ s with log := s.log ++ [⟨"auth.denied", "task", taskId, actor⟩] }, .error .forbidden)
  else if !((evaluateValidation s.policy s.attestedKinds).satisfied
            || (force && hasPermission s.rbac actor "task.force_done")) then
    (s, .error .validationFailed)
  else
    let log1 := s.log ++ [⟨"task.done", "task", taskId, actor⟩]
    let log2 := if force then log1 ++ [⟨"task.force_done", "task", taskId, actor⟩] else log1
    ({ s with status := "done", completedAt := some nowTs, lease := none, log := log2 }, .ok ())

/-- Modelled from the spec: project-level state touched by `CreateTask` and
`CreateAttestation` — RBAC, the task ids, the `(entity_id, kind)` pairs of
recorded attestations, and the event log (section 4.1). -/
structure ProjState where
  rbac : Rbac
  tasks : List String
  attestations : List (String × String)
  log : List Evt

/-- Modelled from the spec: `CreateTask` restricted to its authorization
gate (section 4.1): an actor without `task.create` is denied with
`forbidden` and an `auth.denied` event, and no task is created; otherwise
the task is recorded and `task.created` emitted.  Policy resolution and
dependency checks are outside the claims settled on this operation. -/
def createTask (s : ProjState) (actor taskId : String) : ProjState × Except ErrCode Unit :=
  if !hasPermission s.rbac actor "task.create" then
    ({ s with log := s.log ++ [⟨"auth.denied", "task", taskId, actor⟩] }, .error .forbidden)
  else
    ({ s with tasks := s.tasks ++ [taskId],
              log := s.log ++ [⟨"task.created", "task", taskId, actor⟩] }, .ok ())

/-- Modelled from the spec: `CreateAttestation` restricted to its
authorization gate (sections 4.1, 4.6): a caller that may not assert the
kind is denied with `forbidden_attestation_kind` and an `auth.denied`
event, and no attestation is recorded; otherwise the attestation is
recorded and `attestation.created` emitted. -/
def createAttestation (s : ProjState) (actor attId entityId kind : String) :
    ProjState × Except ErrCode Unit :=
  if !canAttest s.rbac actor kind then
    ({ s with log := s.log ++ [⟨"auth.denied", "attestation", attId, actor⟩] },
     .error .forbiddenAttestationKind)
  else
    ({ s with attestations := s.attestations ++ [(entityId, kind)],
              log := s.log ++ [⟨"attestation.created", "attestation", attId, actor⟩] }, .ok ())

/-! ### Iteration state machine (spec section 4.2) -/

/-- Modelled from the spec: the allowed iteration status edges
`pending → running → delivered → {validated, rejected}` with the retry edge
`rejected → running`; every other edge is rejected (section 4.2). -/
def iterEdgeAllowed : String → String → Bool
  | "pending", "running" => true
  | "running", "delivered" => true
  | "delivered", "validated" => true
  | "delivered", "rejected" => true
  | "rejected", "running" => true
  | _, _ => false

/-- Modelled from the spec: the state consulted by `SetIterationStatus` on
one iteration — RBAC, the iteration's status, the attestation kinds attached
to it, the project's configured required kind for iteration validation (the
empty string meaning none), and the event log (sections 4.2, 4.3). -/
structure IterState where
  rbac : Rbac
  status : String
  attestedKinds : List String
  requiredKind : String
  log : List Evt

/-- Modelled from the spec: `SetIterationStatus` (sections 4.1, 4.2).
Requires `iteration.write`; rejects disallowed edges with
`invalid_transition`; the edge to `validated` additionally requires the
configured attestation kind (when one is configured) to be present on the
iteration, else `validation_failed`. -/
def setIterationStatus (s : IterState) (iterId actor target : String) :
    IterState × Except ErrCode Unit :=
  if !hasPermission s.rbac actor "iteration.write" then
    ({ s with log := s.log ++ [⟨"auth.denied", "iteration", iterId, actor⟩] }, .error .forbidden)
  else if !iterEdgeAllowed s.status target then
    (s, .error .invalidTransition)
  else if target = "validated" && s.requiredKind ≠ "" && !s.attestedKinds.contains s.requiredKind then
    (s, .error .validationFailed)
  else
    ({ s with status := target,
              log := s.log ++ [⟨"iteration.status", "iteration", iterId, actor⟩] }, .ok ())

/-! ### Request decoding and rejection of JSON null arrays (spec section 6) -/

/-- Modelled from the spec: the decoded state of an array-valued request
field, as the request decoder must distinguish it — the key absent, the key
bound to JSON `null`, or the key bound to an actual array (section 6
rejection rules). -/
inductive ArrField where
  | omitted : ArrField
  | null : ArrField
  | given : List String → ArrField
deriving Repr, DecidableEq

/-- Modelled from the spec: a domain error as surfaced through the HTTP
error envelope — a stable code plus the optional `details.field`
(sections 6, 7). -/
structure ApiError where
  code : ErrCode
  field : Option String
deriving Repr, DecidableEq

/-- Embedding of `CreateTaskRequest` (dto.go), restricted to the fields the
rejection rules of spec section 6 inspect: the required `title` and `type`
and the array field `depends_on` in its decoded tri-state. -/
structure CreateTaskRequest where
  title : String
  type : String
  dependsOn : ArrField

/-- Embedding of `UpdateTaskRequest` (dto.go), restricted to the array field
`add_depends_on` in its decoded tri-state. -/
structure UpdateTaskRequest where
  addDependsOn : ArrField

/-- Embedding of `CreateDecisionRequest` (dto.go), restricted to the fields
the rejection rules inspect. -/
structure CreateDecisionRequest where
  id : String
  title : String
  decision : String
  deciderId : String
  rationale : ArrField
  alternatives : ArrField

/-- Modelled from the spec: request validation for task creation
(section 6).  A JSON null `depends_on` is rejected with `bad_request` and
`details.field = "depends_on"`; missing required `title` or `type` also
produce `bad_request`. -/
def validateCreateTask (r : CreateTaskRequest) : Except ApiError Unit :=
  if r.dependsOn = .null then .error ⟨.badRequest, some "depends_on"⟩
  else if r.title = "" then .error ⟨.badRequest, some "title"⟩
  else if r.type = "" then .error ⟨.badRequest, some "type"⟩
  else .ok ()

/-- Modelled from the spec: request validation for task update (section 6):
a JSON null `add_depends_on` is rejected with `bad_request` and
`details.field = "add_depends_on"`. -/
def validateUpdateTask (r : UpdateTaskRequest) : Except ApiError Unit :=
  if r.addDependsOn = .null then .error ⟨.badRequest, some "add_depends_on"⟩
  else .ok ()

/-- Modelled from the spec: request validation for decision creation
(section 6): a JSON null `rationale` or `alternatives` is rejected with
`bad_request` naming the offending field, `rationale` being checked first
in struct order. -/
def validateCreateDecision (r : CreateDecisionRequest) : Except ApiError Unit :=
  if r.rationale = .null then .error ⟨.badRequest, some "rationale"⟩
  else if r.alternatives = .null then .error ⟨.badRequest, some "alternatives"⟩
  else .ok ()

/-- Modelled from the spec: the `POST tasks` handler — decode-and-validate
the request, then run the Engine's `CreateTask`; a validation error is
returned before any state is touched (sections 4.1, 6). -/
def postTask (s : ProjState) (actor : String) (r : CreateTaskRequest) (taskId : String) :
    ProjState × Except ApiError Unit :=
  match validateCreateTask r with
  | .error e => (s, .error e)
  | .ok _ =>
    let (s', res) := createTask s actor taskId
    (s', res.mapError fun c => ⟨c, none⟩)

/-! ### Event journal rows (spec sections 3, 4.7; migration 005_orgs.sql) -/

/-- Embedding of the `events` table row of migration `005_orgs.sql`:
`id INTEGER PRIMARY KEY AUTOINCREMENT`, timestamp, dotted type, project id,
entity kind (constrained by a SQL CHECK), entity id, actor id and the raw
payload JSON. -/
structure EventRow where
  id : Nat
  ts : String
  type : String
  projectId : String
  entityKind : String
  entityId : String
  actorId : String
  payloadJson : RawJson

/-- Embedding of the SQL CHECK constraint of migration `005_orgs.sql`:
`entity_kind IN ('project','iteration','task','decision','lease',
'attestation','rbac')`. -/
def entityKindAllowed (k : String) : Bool :=
  ["project", "iteration", "task", "decision", "lease", "attestation", "rbac"].contains k

/-- Next `AUTOINCREMENT` id: strictly larger than every id in the table. -/
def nextEventId (log : List EventRow) : Nat :=
  (log.map fun e => e.id).foldr max 0 + 1

/-- Embedding of an insert into the `events` table of migration
`005_orgs.sql`: the CHECK constraint rejects an entity kind outside the
enum; otherwise the row is appended with the next autoincrement id.  The
table offers no update or delete, so appending is the only mutation. -/
def insertEventRow (log : List EventRow) (ts ty pid ek eid aid : String)
    (payload : RawJson) : Except Unit (List EventRow) :=
  if entityKindAllowed ek then
    .ok (log ++ [⟨nextEventId log, ts, ty, pid, ek, eid, aid, payload⟩])
  else
    .error ()

/-- Embedding of `EventResponse` (dto.go). -/
structure EventResponse where
  id : Nat
  ts : String
  type : String
  projectId : String
  entityKind : String
  entityId : String
  actorId : String
  payload : Option (List (String × GoJson))

/-- Embedding of `eventResponse` (dto.go): copies the row's fields verbatim
and decodes the payload JSON. -/
def eventResponse (e : EventRow) : EventResponse :=
  { id := e.id
    ts := e.ts
    type := e.type
    projectId := e.projectId
    entityKind := e.entityKind
    entityId := e.entityId
    actorId := e.actorId
    payload := decodeJSONMap e.payloadJson }

/-- Well-formedness of the persisted event table: every row's entity kind
passes the SQL CHECK and the ids are strictly increasing in insertion
order. -/
def eventsWf (log : List EventRow) : Prop :=
  (∀ e ∈ log, entityKindAllowed e.entityKind) ∧
    (log.map fun e => e.id).Pairwise (· < ·)

/-- Sample RBAC state mirroring the test fixtures: `tester` is seeded with
the admin role at project init, `dev-1` holds the `dev` role, `rev1` holds
`reviewer`, and the only attestation authority maps `review.approved` to
`reviewer`. -/
def rbacSample : Rbac :=
  { rolePerms := [("admin", "task.create"), ("admin", "task.claim"),
                  ("admin", "task.force_done"), ("admin", "iteration.write"),
                  ("admin", "attestation.bypass"), ("dev", "task.claim")]
    actorRoles := [("tester", "admin"), ("dev-1", "dev"), ("rev1", "reviewer")]
    attestAuthorities := [("review.approved", "reviewer")] }

/-- Sample stored task with an empty validation mode and nil slices. -/
def taskSample : DomainTask :=
  { id := "task-1", projectId := "proofline", iterationId := none, parentId := none
    type := "technical", title := "Check defaults", description := "", status := "planned"
    assigneeId := none, workProofJSON := .absent, validationMode := ""
    requiredAttestationsJSON := .absent, requiredThreshold := none, dependsOn := none
    createdAt := "t0", updatedAt := "t0", completedAt := none }

/-- Sample task state for completion: `dev-1` holds an active lease, the
policy is `mode=all` requiring `ci.passed`, and no attestation is present. -/
def taskStateSample : TaskState :=
  { rbac := rbacSample, status := "in_progress", completedAt := none
    lease := some ⟨"task-1", "dev-1", 0, 900⟩, attestedKinds := []
    policy := { mode := "all", required := ["ci.passed"], threshold := none }, log := [] }

/-! ## Helper lemmas -/

/-- Lookup in an appended association list skips a head whose lookup is
settled keyless (specialized through the segment lemmas below). -/
theorem lookup_optStrField_append (key k : String) (v : Option String)
    (rest : List (String × GoJson)) (h : (k == key) = false) :
    ((optStrField key v) ++ rest).lookup k = rest.lookup k := by
  cases v <;> simp [optStrField, List.lookup, h]

/-- Lookup skips an omitted-when-empty string field with a different key. -/
theorem lookup_optEmptyStrField_append (key k : String) (s : String)
    (rest : List (String × GoJson)) (h : (k == key) = false) :
    ((optEmptyStrField key s) ++ rest).lookup k = rest.lookup k := by
  unfold optEmptyStrField
  split <;> simp [List.lookup, h]

/-- Lookup skips an omitted-when-empty map field with a different key. -/
theorem lookup_optMapField_append (key k : String) (v : Option (List (String × GoJson)))
    (rest : List (String × GoJson)) (h : (k == key) = false) :
    ((optMapField key v) ++ rest).lookup k = rest.lookup k := by
  match v with
  | none => simp [optMapField]
  | some [] => simp [optMapField]
  | some (kv :: kvs) => simp [optMapField, List.lookup, h]

/-- Lookup skips an omitted-when-nil int field with a different key. -/
theorem lookup_optIntField_append (key k : String) (v : Option Int)
    (rest : List (String × GoJson)) (h : (k == key) = false) :
    ((optIntField key v) ++ rest).lookup k = rest.lookup k := by
  cases v <;> simp [optIntField, List.lookup, h]

/-- Marshalling a slice that went through `nonNilSlice` always yields a JSON
array, namely the array of the underlying list (empty when the slice was
nil). -/
theorem marshalStrSlice_nonNilSlice (x : Option (List String)) :
    marshalStrSlice (nonNilSlice x) = .arr ((x.getD []).map .str) := by
  cases x <;> rfl

/-- A member of a list of naturals is bounded by the list's max fold. -/
theorem le_foldr_max (a : Nat) (l : List Nat) (h : a ∈ l) :
    a ≤ l.foldr max 0 := by
  induction l with
  | nil => cases h
  | cons b l ih =>
    rcases List.mem_cons.mp h with hb | hl
    · subst hb; exact le_max_left _ _
    · exact le_trans (ih hl) (le_max_right _ _)

/-! ## Claims -/

/-- C9: a task whose stored validation mode is the empty string is reported
with validation mode "none", and the reported mode is never the empty
string. -/
theorem taskResponse_validationMode_defaulted (t : DomainTask) :
    (taskResponse t).validationMode ≠ "" ∧
      (t.validationMode = "" → (taskResponse t).validationMode = "none") := by
  constructor
  · show defaultMode t.validationMode ≠ ""
    unfold defaultMode
    split
    · simp
    · assumption
  · intro h
    show defaultMode t.validationMode = "none"
    simp [defaultMode, h]

/-- C9 witness: the sample task stores the empty mode and is reported as
"none". -/
theorem taskResponse_validationMode_defaulted_witness :
    taskSample.validationMode = "" ∧ (taskResponse taskSample).validationMode = "none" :=
  ⟨rfl, (taskResponse_validationMode_defaulted taskSample).2 rfl⟩

/-- C10 counterexample: the stored JSON text `null` parses, is not a string
array, and yet `decodeStringSlice` returns the nil slice rather than the
empty list — Go's `json.Unmarshal` accepts a top-level `null` without error
and sets the slice to nil. -/
theorem decodeStringSlice_null_is_nil :
    decodeStringSlice (RawJson.wellFormed GoJson.null) = none := rfl

/-- C10 (amended): `decodeStringSlice` returns the empty list when the input
is nil, empty, malformed, or fails to unmarshal as a JSON string array,
returns the decoded list on success, and returns the nil slice for the JSON
literal `null`; `decodeJSONMap` returns the nil map when the input is nil,
empty, malformed, or any non-object document, and the entries of a
well-formed object.  Both are total. -/
theorem decode_helpers_total :
    decodeStringSlice .absent = some [] ∧
    decodeStringSlice .empty = some [] ∧
    decodeStringSlice .malformed = some [] ∧
    (∀ j : GoJson, goUnmarshalStringSlice j = none →
      decodeStringSlice (.wellFormed j) = some []) ∧
    decodeStringSlice (.wellFormed .null) = none ∧
    (∀ (es : List GoJson) (l : List String), es.mapM goElemString = some l →
      decodeStringSlice (.wellFormed (.arr es)) = some l) ∧
    decodeJSONMap .absent = none ∧
    decodeJSONMap .empty = none ∧
    decodeJSONMap .malformed = none ∧
    (∀ kvs, decodeJSONMap (.wellFormed (.obj kvs)) = some kvs) ∧
    (∀ j : GoJson, (∀ kvs, j ≠ .obj kvs) → decodeJSONMap (.wellFormed j) = none) := by
  refine ⟨rfl, rfl, rfl, ?_, rfl, ?_, rfl, rfl, rfl, fun kvs => rfl, ?_⟩
  · intro j h
    simp [decodeStringSlice, h]
  · intro es l h
    simp only [decodeStringSlice, goUnmarshalStringSlice, h, Option.map]
  · intro j h
    cases j <;> simp [decodeJSONMap]
    exact absurd rfl (h _)

/-- C10 witness: concrete evaluations of the amended statement — a non-array
document and an element type error both decode to the empty list, a genuine
string array decodes to its entries, and a non-object document decodes to
the nil map. -/
theorem decode_helpers_total_witness :
    decodeStringSlice (.wellFormed (.bool true)) = some [] ∧
    decodeStringSlice (.wellFormed (.arr [.str "ci.passed"])) = some ["ci.passed"] ∧
    decodeJSONMap (.wellFormed (.num 3)) = none :=
  ⟨decode_helpers_total.2.2.2.1 (.bool true) rfl,
   decode_helpers_total.2.2.2.2.2.1 [.str "ci.passed"] ["ci.passed"] rfl,
   decode_helpers_total.2.2.2.2.2.2.2.2.2.2 (.num 3) (fun _ h => GoJson.noConfusion h)⟩

/-- C4: in mode `all` the evaluator is satisfied exactly when every required
kind is attested; `present` and `missing` contain exactly the attested and
unattested required kinds and both are sublists of `required` (hence
preserve its order); the response echoes `required` in configured order; and
on the spec's concrete example (`required = [ci.passed, review.approved]`,
only `ci.passed` attested) it returns `present = [ci.passed]`,
`missing = [review.approved]`, `satisfied = false`. -/
theorem evaluateValidation_mode_all (required kinds : List String) :
    ((evaluateValidation ⟨"all", required, none⟩ kinds).satisfied = true ↔
      ∀ k ∈ required, kinds.contains k = true) ∧
    (∀ k, k ∈ (evaluateValidation ⟨"all", required, none⟩ kinds).present ↔
      k ∈ required ∧ kinds.contains k = true) ∧
    (∀ k, k ∈ (evaluateValidation ⟨"all", required, none⟩ kinds).missing ↔
      k ∈ required ∧ kinds.contains k = false) ∧
    (evaluateValidation ⟨"all", required, none⟩ kinds).present.Sublist required ∧
    (evaluateValidation ⟨"all", required, none⟩ kinds).missing.Sublist required ∧
    (validationStatusResponse ⟨"all", required, none⟩ kinds).required = some required ∧
    evaluateValidation ⟨"all", ["ci.passed", "review.approved"], none⟩ ["ci.passed"]
      = ⟨["ci.passed"], ["review.approved"], false⟩ := by
  refine ⟨?_, ?_, ?_, ?_, ?_, rfl, by decide⟩
  · simp [evaluateValidation]
  · intro k
    simp [evaluateValidation, List.mem_filter]
  · intro k
    simp [evaluateValidation, List.mem_filter]
  · exact List.filter_sublist required
  · exact List.filter_sublist required

/-- C4 witness: the concrete example evaluated through the theorem. -/
theorem evaluateValidation_mode_all_witness :
    evaluateValidation ⟨"all", ["ci.passed", "review.approved"], none⟩ ["ci.passed"]
      = ⟨["ci.passed"], ["review.approved"], false⟩ :=
  (evaluateValidation_mode_all ["ci.passed", "review.approved"] ["ci.passed"]).2.2.2.2.2.2

/-- C6: in every marshalled task, decision, validation-status and who-am-i
response the fields `depends_on`, `required_attestations`, `rationale`,
`alternatives`, `required`, `present`, `missing`, `roles` and `permissions`
are emitted with a JSON array value — the empty array when the underlying
slice is nil or empty — never `null` and never omitted. -/
theorem response_arrays_never_null (t : DomainTask) (d : DomainDecision)
    (p : Policy) (kinds : List String) (actor : String)
    (roles perms : Option (List String)) :
    (taskResponseFields (taskResponse t)).lookup "depends_on"
        = some (.arr ((t.dependsOn.getD []).map .str)) ∧
    (taskResponseFields (taskResponse t)).lookup "required_attestations"
        = some (.arr (((decodeStringSlice t.requiredAttestationsJSON).getD []).map .str)) ∧
    (decisionResponseFields (decisionResponse d)).lookup "rationale"
        = some (.arr (((decodeStringSlice d.rationaleJSON).getD []).map .str)) ∧
    (decisionResponseFields (decisionResponse d)).lookup "alternatives"
        = some (.arr (((decodeStringSlice d.alternativesJSON).getD []).map .str)) ∧
    (validationStatusFields (validationStatusResponse p kinds)).lookup "required"
        = some (.arr (p.required.map .str)) ∧
    (validationStatusFields (validationStatusResponse p kinds)).lookup "present"
        = some (.arr ((evaluateValidation p kinds).present.map .str)) ∧
    (validationStatusFields (validationStatusResponse p kinds)).lookup "missing"
        = some (.arr ((evaluateValidation p kinds).missing.map .str)) ∧
    (whoAmIFields (whoAmIResponse actor roles perms)).lookup "roles"
        = some (.arr ((roles.getD []).map .str)) ∧
    (whoAmIFields (whoAmIResponse actor roles perms)).lookup "permissions"
        = some (.arr ((perms.getD []).map .str)) := by
  refine ⟨?_, ?_, ?_, ?_, ?_, ?_, ?_, ?_, ?_⟩ <;>
    simp [taskResponseFields, taskResponse, decisionResponseFields, decisionResponse,
      validationStatusFields, validationStatusResponse, whoAmIFields, whoAmIResponse,
      List.append_assoc, List.cons_append, List.nil_append, List.lookup,
      lookup_optStrField_append, lookup_optEmptyStrField_append,
      lookup_optMapField_append, lookup_optIntField_append,
      marshalStrSlice_nonNilSlice]

/-- C7: a create or update request whose array field (`depends_on`,
`add_depends_on`, `rationale`, `alternatives`) is JSON null is rejected with
`bad_request` (HTTP 400) and `details.field` naming the offending field, and
no entity is created or modified — the task-creation handler returns the
untouched state. -/
theorem null_array_requests_rejected :
    (∀ (s : ProjState) (actor taskId title ty : String),
      postTask s actor ⟨title, ty, .null⟩ taskId
        = (s, .error ⟨.badRequest, some "depends_on"⟩)) ∧
    (validateUpdateTask ⟨.null⟩ = .error ⟨.badRequest, some "add_depends_on"⟩) ∧
    (∀ (id title decision decider : String) (alt : ArrField),
      validateCreateDecision ⟨id, title, decision, decider, .null, alt⟩
        = .error ⟨.badRequest, some "rationale"⟩) ∧
    (∀ (id title decision decider : String) (l : List String),
      validateCreateDecision ⟨id, title, decision, decider, .given l, .null⟩
        = .error ⟨.badRequest, some "alternatives"⟩) ∧
    httpStatus .badRequest = 400 := by
  refine ⟨?_, rfl, ?_, ?_, rfl⟩
  · intro s actor taskId title ty
    simp [postTask, validateCreateTask]
  · intro id title decision decider alt
    simp [validateCreateDecision]
  · intro id title decision decider l
    simp [validateCreateDecision]

/-- C1: when the caller holds the active lease, `force` is off and the
evaluator is unsatisfied, `CompleteTask` fails with `validation_failed`
(HTTP 422) leaving the task state — in particular its status — untouched;
and any successful completion implies the evaluator was satisfied or
`force = true` with the caller holding `task.force_done`. -/
theorem completeTask_requires_validation (s : TaskState) (taskId actor : String)
    (now : Nat) (nowTs : String)
    (hLease : holdsActiveLease s actor now = true)
    (hUnsat : (evaluateValidation s.policy s.attestedKinds).satisfied = false) :
    completeTask s taskId actor false now nowTs = (s, .error .validationFailed) ∧
    httpStatus .validationFailed = 422 ∧
    (∀ (s' : TaskState) (force : Bool),
      completeTask s taskId actor force now nowTs = (s', .ok ()) →
      (evaluateValidation s.policy s.attestedKinds).satisfied = true ∨
        (force = true ∧ hasPermission s.rbac actor "task.force_done" = true)) := by
  refine ⟨?_, rfl, ?_⟩
  · simp [completeTask, hLease, hUnsat]
  · intro s' force h
    unfold completeTask at h
    split at h
    · simp at h
    · split at h
      · simp at h
      · rename_i hcond
        by_cases hsat : (evaluateValidation s.policy s.attestedKinds).satisfied = true
        · exact Or.inl hsat
        · refine Or.inr ?_
          simp only [Bool.not_eq_true] at hsat
          simp [hsat] at hcond
          exact hcond

/-- C1 witness: `dev-1` holds the sample task's active lease at time 10, the
`mode=all` policy requiring `ci.passed` is unsatisfied (no attestations),
and completing without force fails with `validation_failed`. -/
theorem completeTask_requires_validation_witness :
    completeTask taskStateSample "task-1" "dev-1" false 10 "t1"
      = (taskStateSample, .error .validationFailed) ∧
    httpStatus .validationFailed = 422 :=
  ⟨(completeTask_requires_validation taskStateSample "task-1" "dev-1" 10 "t1"
      (by decide) (by decide)).1,
   (completeTask_requires_validation taskStateSample "task-1" "dev-1" 10 "t1"
      (by decide) (by decide)).2.1⟩

/-- C2: an active lease held by one actor makes any claim by a different
actor fail with `lease_conflict` (HTTP 409) without touching the lease; and
in the two-claims scenario from a lease-free task the first claimer gets the
lease while the second, distinct claimer gets `lease_conflict` — exactly one
of the two claims succeeds. -/
theorem claim_lease_conflict (rbac : Rbac) (log : List Evt) (taskId a1 a2 : String)
    (now ttl now2 : Nat)
    (h1 : hasPermission rbac a1 "task.claim" = true)
    (h2 : hasPermission rbac a2 "task.claim" = true)
    (hne : a1 ≠ a2)
    (hact : now2 < now + ttl) :
    (∀ (s : ClaimState) (l : Lease), hasPermission s.rbac a2 "task.claim" = true →
      s.lease = some l → leaseActive l now2 = true → l.ownerId ≠ a2 →
      claimTask s taskId a2 now2 ttl = (s, .error .leaseConflict)) ∧
    ((claimTask ⟨rbac, none, log⟩ taskId a1 now ttl).2
        = .ok ⟨taskId, a1, now, now + ttl⟩) ∧
    ((claimTask (claimTask ⟨rbac, none, log⟩ taskId a1 now ttl).1 taskId a2 now2 ttl).2
        = .error .leaseConflict) ∧
    ((claimTask (claimTask ⟨rbac, none, log⟩ taskId a1 now ttl).1 taskId a2 now2 ttl).1.lease
        = (claimTask ⟨rbac, none, log⟩ taskId a1 now ttl).1.lease) ∧
    httpStatus .leaseConflict = 409 := by
  refine ⟨?_, ?_, ?_, ?_, rfl⟩
  · intro s l hperm hs hact2 hown
    simp [claimTask, hperm, hs, hact2, hown]
  · simp [claimTask, h1]
  · simp [claimTask, h1, h2, leaseActive, hact, hne]
  · simp [claimTask, h1, h2, leaseActive, hact, hne]

/-- C2 witness: on the sample RBAC state, `tester` claims the lease-free
task at time 0 with TTL 900; a claim by `dev-1` at time 10 conflicts. -/
theorem claim_lease_conflict_witness :
    ((claimTask ⟨rbacSample, none, []⟩ "task-1" "tester" 0 900).2
        = .ok ⟨"task-1", "tester", 0, 900⟩) ∧
    ((claimTask (claimTask ⟨rbacSample, none, []⟩ "task-1" "tester" 0 900).1
        "task-1" "dev-1" 10 900).2 = .error .leaseConflict) :=
  ⟨(claim_lease_conflict rbacSample [] "task-1" "tester" "dev-1" 0 900 10
      (by decide) (by decide) (by decide) (by decide)).2.1,
   (claim_lease_conflict rbacSample [] "task-1" "tester" "dev-1" 0 900 10
      (by decide) (by decide) (by decide) (by decide)).2.2.1⟩

/-- C3: a mutating operation by an actor lacking the required permission is
denied — `CreateTask` with `forbidden`, `CreateAttestation` with
`forbidden_attestation_kind` for an unauthorized kind, both HTTP 403 — the
state change does not occur, and an `auth.denied` event carrying the actor
is appended and visible in the filtered events listing. -/
theorem denied_mutations_emit_auth_denied (s : ProjState)
    (actor taskId attId entityId kind : String)
    (hTask : hasPermission s.rbac actor "task.create" = false)
    (hAtt : canAttest s.rbac actor kind = false) :
    (createTask s actor taskId).2 = .error .forbidden ∧
    (createTask s actor taskId).1.tasks = s.tasks ∧
    (createTask s actor taskId).1.log = s.log ++ [⟨"auth.denied", "task", taskId, actor⟩] ∧
    (⟨"auth.denied", "task", taskId, actor⟩ : Evt)
      ∈ listEvents (createTask s actor taskId).1.log (some "auth.denied") ∧
    (createAttestation s actor attId entityId kind).2 = .error .forbiddenAttestationKind ∧
    (createAttestation s actor attId entityId kind).1.attestations = s.attestations ∧
    (createAttestation s actor attId entityId kind).1.log
      = s.log ++ [⟨"auth.denied", "attestation", attId, actor⟩] ∧
    (⟨"auth.denied", "attestation", attId, actor⟩ : Evt)
      ∈ listEvents (createAttestation s actor attId entityId kind).1.log (some "auth.denied") ∧
    httpStatus .forbidden = 403 ∧ httpStatus .forbiddenAttestationKind = 403 := by
  refine ⟨?_, ?_, ?_, ?_, ?_, ?_, ?_, ?_, rfl, rfl⟩ <;>
    simp [createTask, createAttestation, listEvents, hTask, hAtt]

/-- C3 witness: `intruder` has no roles, so task creation is denied; `rev1`
holds only `reviewer`, which has no authority over kind `security.ok`, so
that attestation is denied — each appending an `auth.denied` event. -/
theorem denied_mutations_emit_auth_denied_witness :
    (createTask ⟨rbacSample, [], [], []⟩ "intruder" "task-x").2 = .error .forbidden ∧
    (createAttestation ⟨rbacSample, [], [], []⟩ "rev1" "att-1" "task-1" "security.ok").2
      = .error .forbiddenAttestationKind :=
  ⟨(denied_mutations_emit_auth_denied ⟨rbacSample, [], [], []⟩ "intruder" "task-x"
      "att-1" "task-1" "security.ok" (by decide) (by decide)).1,
   (denied_mutations_emit_auth_denied ⟨rbacSample, [], [], []⟩ "rev1" "task-x"
      "att-1" "task-1" "security.ok" (by decide) (by decide)).2.2.2.2.1⟩

/-- C5: with a required iteration attestation kind configured and absent,
the transitions pending to running and running to delivered succeed, but
setting `validated` from `delivered` fails with `validation_failed`
(HTTP 422) leaving the status at `delivered`. -/
theorem iteration_validated_blocked (rbac : Rbac) (log : List Evt)
    (iterId actor r : String) (kinds : List String)
    (hperm : hasPermission rbac actor "iteration.write" = true)
    (hr : r ≠ "")
    (hmiss : kinds.contains r = false) :
    (setIterationStatus ⟨rbac, "pending", kinds, r, log⟩ iterId actor "running").2 = .ok () ∧
    (setIterationStatus ⟨rbac, "pending", kinds, r, log⟩ iterId actor "running").1.status
      = "running" ∧
    (setIterationStatus
      (setIterationStatus ⟨rbac, "pending", kinds, r, log⟩ iterId actor "running").1
      iterId actor "delivered").2 = .ok () ∧
    (setIterationStatus
      (setIterationStatus ⟨rbac, "pending", kinds, r, log⟩ iterId actor "running").1
      iterId actor "delivered").1.status = "delivered" ∧
    (setIterationStatus
      (setIterationStatus
        (setIterationStatus ⟨rbac, "pending", kinds, r, log⟩ iterId actor "running").1
        iterId actor "delivered").1
      iterId actor "validated")
      = ((setIterationStatus
          (setIterationStatus ⟨rbac, "pending", kinds, r, log⟩ iterId actor "running").1
          iterId actor "delivered").1, .error .validationFailed) ∧
    (setIterationStatus
      (setIterationStatus
        (setIterationStatus ⟨rbac, "pending", kinds, r, log⟩ iterId actor "running").1
        iterId actor "delivered").1
      iterId actor "validated").1.status = "delivered" ∧
    httpStatus .validationFailed = 422 := by
  have hmiss' : r ∉ kinds := by simpa using hmiss
  refine ⟨?_, ?_, ?_, ?_, ?_, ?_, rfl⟩ <;>
    simp [setIterationStatus, iterEdgeAllowed, hperm, hr, hmiss, hmiss']

/-- C5 witness: `tester` advances the sample iteration pending to running to
delivered; with `iteration.approved` required and absent, `validated` is
rejected with `validation_failed`. -/
theorem iteration_validated_blocked_witness :
    (setIterationStatus
      (setIterationStatus
        (setIterationStatus ⟨rbacSample, "pending", [], "iteration.approved", []⟩
          "iter-1" "tester" "running").1
        "iter-1" "tester" "delivered").1
      "iter-1" "tester" "validated").2 = .error .validationFailed :=
  congrArg Prod.snd
    ((iteration_validated_blocked rbacSample [] "iter-1" "tester" "iteration.approved" []
      (by decide) (by decide) (by decide)).2.2.2.2.1)

/-- C8: a successful insert into the events table appends exactly one row at
the end — the table is append-only, the only mutation being an insert —
preserves the well-formedness invariant that every stored entity kind lies
in the SQL enum {project, iteration, task, decision, lease, attestation,
rbac} and that ids are strictly increasing, and every listed
`EventResponse` carries an entity kind from that same set. -/
theorem event_journal_invariant (log log' : List EventRow)
    (ts ty pid ek eid aid : String) (payload : RawJson)
    (hWf : eventsWf log)
    (hIns : insertEventRow log ts ty pid ek eid aid payload = .ok log') :
    eventsWf log' ∧
    log' = log ++ [⟨nextEventId log, ts, ty, pid, ek, eid, aid, payload⟩] ∧
    (∀ e ∈ log', entityKindAllowed (eventResponse e).entityKind = true) := by
  unfold insertEventRow at hIns
  split at hIns
  case isFalse => exact absurd hIns (by simp)
  case isTrue hek =>
    have hlog' : log' = log ++ [⟨nextEventId log, ts, ty, pid, ek, eid, aid, payload⟩] := by
      injection hIns with h
      exact h.symm
    subst hlog'
    obtain ⟨hKinds, hIds⟩ := hWf
    have hAll : ∀ e ∈ log ++ [(⟨nextEventId log, ts, ty, pid, ek, eid, aid, payload⟩ : EventRow)],
        entityKindAllowed e.entityKind = true := by
      intro e he
      rcases List.mem_append.mp he with hin | hnew
      · exact hKinds e hin
      · rcases List.mem_singleton.mp hnew with rfl
        exact hek
    refine ⟨⟨hAll, ?_⟩, rfl, fun e he => hAll e he⟩
    rw [List.map_append]
    rw [List.pairwise_append]
    refine ⟨hIds, by simp, ?_⟩
    intro a ha b hb
    rcases List.mem_map.mp ha with ⟨e, he, rfl⟩
    rcases List.mem_singleton.mp (by simpa using hb) with rfl
    have : e.id ≤ (log.map fun x => x.id).foldr max 0 :=
      le_foldr_max e.id _ (List.mem_map.mpr ⟨e, he, rfl⟩)
    calc e.id ≤ (log.map fun x => x.id).foldr max 0 := this
      _ < nextEventId log := Nat.lt_succ_self _

/-- C8 witness: inserting a task event into the empty table yields a
well-formed one-row table with id 1. -/
theorem event_journal_invariant_witness :
    eventsWf [⟨1, "t0", "task.created", "proofline", "task", "task-1", "tester", RawJson.absent⟩] :=
  (event_journal_invariant []
    [⟨1, "t0", "task.created", "proofline", "task", "task-1", "tester", RawJson.absent⟩]
    "t0" "task.created" "proofline" "task" "task-1" "tester" RawJson.absent
    ⟨by simp, by simp [eventsWf]⟩ (by rfl)).1

end Proofline
